import Mathlib

/-!
Shallow embedding of `lib/rpc.py` (ganeti RPC client): the wire codec
(simplejson dumps/loads, an external library modelled by a JSON
serializer/parser over the value fragment the RPC layer exchanges), the
per-node call lifecycle (`NodeController`), the fan-out client (`Client`),
and the `call_os_diagnose` convenience wrapper.

Python exceptions that escape a function are modelled by `Except.error`;
a normal return is `Except.ok`.  Machine-level details (sockets, threads)
are modelled by an environment assigning to each (node, open-attempt)
pair a transport behaviour: whether connect+send raises `socket.error`,
and which HTTP response (status, Content-Length header, bytes available
on the wire) a subsequent `getresponse` yields.
-/

/-- PyVal models the plain-data values the RPC layer exchanges: the
JSON value fragment used by `simplejson` (null, booleans, integers,
strings, lists, string-keyed dicts).  Floats are outside the fragment
this development exercises. -/
inductive PyVal where
  | null
  | bool (b : Bool)
  | int (n : Int)
  | str (s : String)
  | list (xs : List PyVal)
  | dict (kvs : List (String × PyVal))

/-- pyTruthy models Python truthiness (`if v:`) on the PyVal fragment:
None, False, 0, "", [] and {} are falsy, everything else truthy. -/
def pyTruthy : PyVal → Bool
  | .null => false
  | .bool b => b
  | .int n => n != 0
  | .str s => s != ""
  | .list xs => !xs.isEmpty
  | .dict kvs => !kvs.isEmpty

/-- pyIter models `for x in v` on a PyVal: lists yield their elements,
dicts their keys, strings their one-character substrings; iterating a
non-iterable (None, bool, int) raises TypeError, modelled as an error. -/
def pyIter : PyVal → Except String (List PyVal)
  | .list xs => .ok xs
  | .dict kvs => .ok (kvs.map (fun kv => PyVal.str kv.1))
  | .str s => .ok (s.data.map (fun c => PyVal.str (String.mk [c])))
  | _ => .error "TypeError: not iterable"

/-- jsonEscapeChar renders one character of a JSON string literal, as
`simplejson.dumps` does for the characters exercised here. -/
def jsonEscapeChar (c : Char) : String :=
  if c = '"' then "\\\""
  else if c = '\\' then "\\\\"
  else if c = '\n' then "\\n"
  else if c = '\t' then "\\t"
  else if c = '\r' then "\\r"
  else String.mk [c]

/-- jsonQuote renders a JSON string literal with its quotes. -/
def jsonQuote (s : String) : String :=
  "\"" ++ String.join (s.data.map jsonEscapeChar) ++ "\""

/-- sepJoin interleaves a separator between rendered items. -/
def sepJoin (sep : String) : List String → String
  | [] => ""
  | [x] => x
  | x :: rest => x ++ sep ++ sepJoin sep rest

mutual
/-- dumps models `simplejson.dumps` on the PyVal fragment: a pure,
deterministic rendering (old simplejson default separators ", " / ": "). -/
def dumps : PyVal → String
  | .null => "null"
  | .bool true => "true"
  | .bool false => "false"
  | .int n => toString n
  | .str s => jsonQuote s
  | .list xs => "[" ++ sepJoin ", " (dumpsList xs) ++ "]"
  | .dict kvs => "\x7b" ++ sepJoin ", " (dumpsDict kvs) ++ "\x7d"

/-- dumpsList renders each element of a JSON array. -/
def dumpsList : List PyVal → List String
  | [] => []
  | x :: rest => dumps x :: dumpsList rest

/-- dumpsDict renders each "key": value member of a JSON object. -/
def dumpsDict : List (String × PyVal) → List String
  | [] => []
  | (k, v) :: rest => (jsonQuote k ++ ": " ++ dumps v) :: dumpsDict rest
end

/-- isJsonWs recognizes the whitespace characters JSON skips. -/
def isJsonWs (c : Char) : Bool :=
  c = ' ' || c = '\n' || c = '\t' || c = '\r'

/-- skipWs drops leading JSON whitespace. -/
def skipWs (cs : List Char) : List Char :=
  cs.dropWhile isJsonWs

/-- isDigitCh recognizes an ASCII decimal digit. -/
def isDigitCh (c : Char) : Bool :=
  '0' ≤ c && c ≤ '9'

/-- digitVal maps an ASCII digit to its value. -/
def digitVal (c : Char) : Nat :=
  c.toNat - '0'.toNat

/-- digitsToNat folds a digit string into a natural number. -/
def digitsToNat (cs : List Char) : Nat :=
  cs.foldl (fun acc c => acc * 10 + digitVal c) 0

/-- parseStr scans the remainder of a JSON string literal (the opening
quote already consumed), handling the simple escapes; a `\u` escape or
unterminated literal is a parse error. -/
def parseStr : List Char → List Char → Except String (PyVal × List Char)
  | acc, '"' :: rest => .ok (.str (String.mk acc.reverse), rest)
  | acc, '\\' :: e :: rest =>
    if e = '"' then parseStr ('"' :: acc) rest
    else if e = '\\' then parseStr ('\\' :: acc) rest
    else if e = '/' then parseStr ('/' :: acc) rest
    else if e = 'n' then parseStr ('\n' :: acc) rest
    else if e = 't' then parseStr ('\t' :: acc) rest
    else if e = 'r' then parseStr ('\r' :: acc) rest
    else .error "invalid escape"
  | acc, c :: rest => parseStr (c :: acc) rest
  | _, [] => .error "unterminated string"

/-- parseNum scans a JSON integer (optional minus sign, digits); a
fraction or exponent marks a float, outside the modelled fragment. -/
def parseNum (cs : List Char) : Except String (PyVal × List Char) :=
  let (neg, cs1) := match cs with
    | '-' :: rest => (true, rest)
    | rest => (false, rest)
  let ds := cs1.takeWhile isDigitCh
  let rest := cs1.dropWhile isDigitCh
  if ds.isEmpty then .error "expected digits"
  else match rest with
    | '.' :: _ => .error "float outside modelled fragment"
    | 'e' :: _ => .error "float outside modelled fragment"
    | 'E' :: _ => .error "float outside modelled fragment"
    | _ =>
      let n : Int := Int.ofNat (digitsToNat ds)
      .ok (.int (if neg then -n else n), rest)

mutual
/-- parseVal parses one JSON value from the input, fuelled to bound the
recursion; returns the value and the unconsumed input. -/
def parseVal : Nat → List Char → Except String (PyVal × List Char)
  | 0, _ => .error "fuel exhausted"
  | Nat.succ fuel, cs =>
    match skipWs cs with
    | 'n' :: 'u' :: 'l' :: 'l' :: rest => .ok (.null, rest)
    | 't' :: 'r' :: 'u' :: 'e' :: rest => .ok (.bool true, rest)
    | 'f' :: 'a' :: 'l' :: 's' :: 'e' :: rest => .ok (.bool false, rest)
    | '"' :: rest => parseStr [] rest
    | '[' :: rest =>
      (match skipWs rest with
       | ']' :: rest2 => .ok (.list [], rest2)
       | _ => match parseElems fuel rest with
         | .ok (xs, rest2) => .ok (.list xs, rest2)
         | .error e => .error e)
    | '\x7b' :: rest =>
      (match skipWs rest with
       | '\x7d' :: rest2 => .ok (.dict [], rest2)
       | _ => match parseMembers fuel rest with
         | .ok (kvs, rest2) => .ok (.dict kvs, rest2)
         | .error e => .error e)
    | rest => parseNum rest

/-- parseElems parses the comma-separated elements of a non-empty JSON
array, up to and including the closing bracket. -/
def parseElems : Nat → List Char → Except String (List PyVal × List Char)
  | 0, _ => .error "fuel exhausted"
  | Nat.succ fuel, cs =>
    match parseVal fuel cs with
    | .error e => .error e
    | .ok (v, rest) =>
      match skipWs rest with
      | ']' :: rest2 => .ok ([v], rest2)
      | ',' :: rest2 =>
        (match parseElems fuel rest2 with
         | .ok (xs, rest3) => .ok (v :: xs, rest3)
         | .error e => .error e)
      | _ => .error "expected , or ]"

/-- parseMembers parses the comma-separated members of a non-empty JSON
object, up to and including the closing brace. -/
def parseMembers : Nat → List Char → Except String (List (String × PyVal) × List Char)
  | 0, _ => .error "fuel exhausted"
  | Nat.succ fuel, cs =>
    match skipWs cs with
    | '"' :: rest =>
      (match parseStr [] rest with
       | .error e => .error e
       | .ok (.str k, rest1) =>
         (match skipWs rest1 with
          | ':' :: rest2 =>
            (match parseVal fuel rest2 with
             | .error e => .error e
             | .ok (v, rest3) =>
               match skipWs rest3 with
               | '\x7d' :: rest4 => .ok ([(k, v)], rest4)
               | ',' :: rest4 =>
                 (match parseMembers fuel rest4 with
                  | .ok (kvs, rest5) => .ok ((k, v) :: kvs, rest5)
                  | .error e => .error e)
               | _ => .error "expected , or brace")
          | _ => .error "expected :")
       | .ok _ => .error "bad key")
    | _ => .error "expected string key"
end

/-- loads models `simplejson.loads`: parse one JSON document and demand
that nothing but whitespace follows; any failure models the ValueError
that `simplejson.loads` raises on malformed input. -/
def loads (s : String) : Except String PyVal :=
  match parseVal (2 * s.data.length + 4) s.data with
  | .error e => .error e
  | .ok (v, rest) =>
    match skipWs rest with
    | [] => .ok v
    | _ => .error "extra data"

/-- pyInt models Python `int(s)`: strip surrounding whitespace, accept
an optional sign followed by one or more digits, otherwise raise
ValueError (modelled as `none`). -/
def pyInt (s : String) : Option Int :=
  let cs := (s.data.dropWhile isJsonWs).reverse.dropWhile isJsonWs |>.reverse
  let (neg, ds) := match cs with
    | '-' :: rest => (true, rest)
    | '+' :: rest => (false, rest)
    | rest => (false, rest)
  if ds.isEmpty || !(ds.all isDigitCh) then Option.none
  else
    let n : Int := Int.ofNat (digitsToNat ds)
    some (if neg then -n else n)

example : loads "false" = .ok (.bool false) := rfl
example : loads "[]" = .ok (.list []) := rfl
example : loads "12" = .ok (.int 12) := rfl
example : (loads "\x7b\x7b\x7b").isOk = false := rfl
example : (loads "").isOk = false := rfl
example : loads "\x7b\"vg0\": 1024\x7d" = .ok (.dict [("vg0", .int 1024)]) := rfl
example : dumps (.list [.str "xenvg"]) = "[\"xenvg\"]" := rfl
example : pyInt "0" = some 0 := rfl
example : pyInt "  42 " = some 42 := rfl
example : pyInt "x" = Option.none := rfl

/-- HttpResponse models what `http_conn.getresponse()` hands back: the
status code, the raw Content-Length header if the node sent one
(`resp.getheader` falls back to "0" when absent), and the bytes of the
body actually available to be read from the wire. -/
structure HttpResponse where
  status : Nat
  contentLength : Option String
  body : List Char

/-- NodeBehavior is the transport behaviour of one connection attempt:
whether connect+send raises `socket.error`, and the response that a
later `getresponse()` yields (`none` models `getresponse` itself
raising, which `rpc.py` does not catch). -/
structure NodeBehavior where
  connectOk : Bool
  response : Option HttpResponse

/-- Env assigns a transport behaviour to every (node name, per-node
open-attempt index) pair; the attempt index distinguishes repeated
connections to the same node within one fan-out call. -/
def Env : Type := String → Nat → NodeBehavior

/-- NodeController mirrors `rpc.py` lines 44-67: the per-node state
created by `NodeController.__init__`.  `failed` is set when connect or
send raised `socket.error` (the exception is caught, never propagated);
`body` records the request body transmitted, which `__init__` takes from
`parent.body`; `attempt` identifies which connection attempt to this
node created the controller. -/
structure NodeController where
  node : String
  attempt : Nat
  failed : Bool
  body : String

/-- mkNodeController models `NodeController.__init__(parent, node)`:
open the HTTP connection and send the request built from the parent
client's procedure and pre-encoded body; a `socket.error` is caught and
recorded as `failed = True`.  The constructor always returns a
controller — no exception escapes, hence the total (non-Except) type. -/
def mkNodeController (env : Env) (bodyStr : String) (node : String) (attempt : Nat) : NodeController :=
  { node := node
    attempt := attempt
    failed := !(env node attempt).connectOk
    body := bodyStr }

/-- readAmt models `resp.read(length)` in Python 2 httplib: return up to
`length` bytes (fewer when the wire has fewer); a negative amount reads
everything remaining. -/
def readAmt (length : Int) (body : List Char) : List Char :=
  if length < 0 then body else body.take length.toNat

/-- falseVal is Python `False`, the single sentinel `get_response`
returns for every failure kind. -/
def falseVal : PyVal := .bool false

/-- get_response models `NodeController.get_response` (rpc.py lines
69-88).  A failed handle returns `False` at once.  Otherwise the
response is fetched: non-200 status, an unparsable Content-Length
header, or a zero length each return `False`; then `read(length)` bytes
are decoded with `simplejson.loads`, whose ValueError on malformed input
is NOT caught and therefore escapes (`Except.error`). -/
def get_response (env : Env) (nc : NodeController) : Except String PyVal :=
  if nc.failed then .ok falseVal
  else
    match (env nc.node nc.attempt).response with
    | Option.none => .error "socket.error in getresponse"
    | some resp =>
      if resp.status ≠ 200 then .ok falseVal
      else
        match pyInt (resp.contentLength.getD "0") with
        | Option.none => .ok falseVal
        | some length =>
          if length = 0 then .ok falseVal
          else loads (String.mk (readAmt length resp.body))

/-- setk models `d[k] = v` on a Python dict rendered as an association
list: overwrite in place when the key exists, append otherwise. -/
def setk (k : String) (v : α) : List (String × α) → List (String × α)
  | [] => [(k, v)]
  | (k1, v1) :: rest => if k1 = k then (k, v) :: rest else (k1, v1) :: setk k v rest

/-- lookupk models `d[k]` / `d.get(k)` on the association-list dict. -/
def lookupk (k : String) : List (String × α) → Option α
  | [] => Option.none
  | (k1, v1) :: rest => if k1 = k then some v1 else lookupk k rest

/-- keysOf lists the keys of the association-list dict in order. -/
def keysOf (m : List (String × α)) : List String :=
  m.map Prod.fst

/-- Client mirrors `rpc.py` lines 91-145: procedure name, argument
list, the body encoded ONCE in `__init__` (`self.body =
simplejson.dumps(args)`), the controller dict `self.nc`, the results
dict `self.results`, plus two pieces of instrumentation the Python
state holds implicitly: `attempts node` counts connections opened to
each node so far, and `opensLog` records every connection opening (the
network activity) in order. -/
structure Client where
  procedure : String
  args : List PyVal
  body : String
  nc : List (String × NodeController)
  results : List (String × PyVal)
  attempts : String → Nat
  opensLog : List (String × Nat)

/-- Client.init models `Client.__init__(procedure, args)`: the body is
encoded exactly once, here; port and password lookups are external
configuration with no bearing on the call results. -/
def Client.init (procedure : String) (args : List PyVal) : Client :=
  { procedure := procedure
    args := args
    body := dumps (.list args)
    nc := []
    results := []
    attempts := fun _ => 0
    opensLog := [] }

/-- Client.connect models `Client.connect`: `self.nc[connect_node] =
NodeController(self, connect_node)` — a NEW controller (and connection)
is created for every call, while the dict entry is overwritten. -/
def Client.connect (env : Env) (c : Client) (node : String) : Client :=
  let k := c.attempts node
  let ctrl := mkNodeController env c.body node k
  { c with
    nc := setk node ctrl c.nc
    attempts := fun n => if n = node then c.attempts n + 1 else c.attempts n
    opensLog := c.opensLog ++ [(node, k)] }

/-- Client.connect_list models `Client.connect_list`: connect to each
node of the list in order. -/
def Client.connect_list (env : Env) (c : Client) (nodes : List String) : Client :=
  nodes.foldl (Client.connect env) c

/-- runResults models the loop body of `Client.run`: `for node, nc in
self.nc.items(): self.results[node] = nc.get_response()`.  An exception
raised by any `get_response` (an uncaught simplejson ValueError)
propagates out of the loop, so the caller never receives the dict. -/
def runResults (env : Env) : List (String × NodeController) → Except String (List (String × PyVal))
  | [] => .ok []
  | (n, nc) :: rest =>
    match get_response env nc with
    | .error e => .error e
    | .ok v =>
      match runResults env rest with
      | .error e => .error e
      | .ok r => .ok ((n, v) :: r)

/-- Client.run models `Client.run` followed by `Client.getresult` as
every `call_*` wrapper uses them: fill `self.results` from the
controllers, or propagate the first uncaught exception. -/
def Client.run (env : Env) (c : Client) : Except String Client :=
  match runResults env c.nc with
  | .error e => .error e
  | .ok rs => .ok { c with results := rs }

/-- Client.getresult models `Client.getresult`: return `self.results`. -/
def Client.getresult (c : Client) : List (String × PyVal) :=
  c.results

/-- call is the fan-out sequence every multi-node `call_*` wrapper
performs: `c = Client(procedure, args); c.connect_list(node_list);
c.run(); return c.getresult()`. -/
def call (env : Env) (procedure : String) (args : List PyVal) (nodes : List String) : Except String (List (String × PyVal)) :=
  let c := Client.connect_list env (Client.init procedure args) nodes
  match Client.run env c with
  | .error e => .error e
  | .ok c2 => .ok (Client.getresult c2)

/-- callOpens counts the connection openings (network activity) the
fan-out sequence performs for a given node list. -/
def callOpens (env : Env) (procedure : String) (args : List PyVal) (nodes : List String) : Nat :=
  (Client.connect_list env (Client.init procedure args) nodes).opensLog.length

/-- osEntry models the per-node branch of `RpcRunner.call_os_diagnose`
(rpc.py lines 631-634): `if result[node_name]: nr = [objects.OS.FromDict(oss)
for oss in result[node_name]] / else: nr = []` — a truthy raw result is
iterated and each element converted with `objects.OS.FromDict` (an
external constructor, abstracted as `fromDict`), while any falsy raw
result becomes the empty list. -/
def osEntry (fromDict : PyVal → α) (v : PyVal) : Except String (List α) :=
  if pyTruthy v then
    match pyIter v with
    | .error e => .error e
    | .ok xs => .ok (xs.map fromDict)
  else .ok []

/-- osDiagPost models the post-processing loop of
`RpcRunner.call_os_diagnose` (rpc.py lines 628-636): build `new_result`
with one `osEntry` per node of the raw result dict. -/
def osDiagPost (fromDict : PyVal → α) : List (String × PyVal) → Except String (List (String × List α))
  | [] => .ok []
  | (n, v) :: rest =>
    match osEntry fromDict v with
    | .error e => .error e
    | .ok nr =>
      match osDiagPost fromDict rest with
      | .error e => .error e
      | .ok r => .ok ((n, nr) :: r)

/-- call_os_diagnose models `RpcRunner.call_os_diagnose`: a fan-out
call of procedure "os_diagnose" with no arguments, followed by the
falsy-collapsing post-processing. -/
def call_os_diagnose (fromDict : PyVal → α) (env : Env) (nodes : List String) : Except String (List (String × List α)) :=
  match call env "os_diagnose" [] nodes with
  | .error e => .error e
  | .ok result => osDiagPost fromDict result

/-- countOcc counts the occurrences of a node name in a target list. -/
def countOcc (n : String) : List String → Nat
  | [] => 0
  | x :: xs => (if n = x then 1 else 0) + countOcc n xs

/-- opensCount counts the connection openings to one node recorded in a
client's opens log. -/
def opensCount (n : String) : List (String × Nat) → Nat
  | [] => 0
  | (x, _) :: rest => (if x = n then 1 else 0) + opensCount n rest

lemma keysOf_cons (p : String × α) (rest : List (String × α)) :
    keysOf (p :: rest) = p.1 :: keysOf rest := rfl

lemma countOcc_cons (n x : String) (xs : List String) :
    countOcc n (x :: xs) = (if n = x then 1 else 0) + countOcc n xs := rfl

lemma countOcc_pos_iff_mem (n : String) (nodes : List String) :
    0 < countOcc n nodes ↔ n ∈ nodes := by
  induction nodes with
  | nil => simp [countOcc]
  | cons x xs ih =>
    by_cases h : n = x
    · simp [countOcc, h]
    · simp [countOcc, h, ih]

lemma lookupk_setk_self (k : String) (v : α) (m : List (String × α)) :
    lookupk k (setk k v m) = some v := by
  induction m with
  | nil => simp [setk, lookupk]
  | cons p rest ih =>
    obtain ⟨k1, v1⟩ := p
    by_cases h : k1 = k
    · simp [setk, lookupk, h]
    · simp [setk, lookupk, h, ih]

lemma lookupk_setk_ne (n k : String) (v : α) (m : List (String × α)) (h : n ≠ k) :
    lookupk n (setk k v m) = lookupk n m := by
  induction m with
  | nil => simp [setk, lookupk, Ne.symm h]
  | cons p rest ih =>
    obtain ⟨k1, v1⟩ := p
    by_cases h1 : k1 = k
    · subst h1
      simp [setk, lookupk, Ne.symm h]
    · by_cases h2 : k1 = n
      · simp [setk, lookupk, h1, h2, h]
      · simp [setk, lookupk, h1, h2, ih]

lemma mem_keysOf_setk (n k : String) (v : α) (m : List (String × α)) :
    n ∈ keysOf (setk k v m) ↔ n = k ∨ n ∈ keysOf m := by
  induction m with
  | nil => simp [setk, keysOf]
  | cons p rest ih =>
    obtain ⟨k1, v1⟩ := p
    by_cases h1 : k1 = k
    · subst h1
      have hs : setk k1 v ((k1, v1) :: rest) = (k1, v) :: rest := by simp [setk]
      rw [hs, keysOf_cons, keysOf_cons]
      simp only [List.mem_cons]
      tauto
    · have hs : setk k v ((k1, v1) :: rest) = (k1, v1) :: setk k v rest := by simp [setk, h1]
      rw [hs, keysOf_cons, keysOf_cons]
      simp only [List.mem_cons, ih]
      tauto

lemma nodup_keysOf_setk (k : String) (v : α) (m : List (String × α))
    (h : (keysOf m).Nodup) : (keysOf (setk k v m)).Nodup := by
  induction m with
  | nil => simp [setk, keysOf]
  | cons p rest ih =>
    obtain ⟨k1, v1⟩ := p
    rw [keysOf_cons, List.nodup_cons] at h
    by_cases h1 : k1 = k
    · subst h1
      have hs : setk k1 v ((k1, v1) :: rest) = (k1, v) :: rest := by simp [setk]
      rw [hs, keysOf_cons, List.nodup_cons]
      exact h
    · have hs : setk k v ((k1, v1) :: rest) = (k1, v1) :: setk k v rest := by simp [setk, h1]
      rw [hs, keysOf_cons, List.nodup_cons]
      refine ⟨?_, ih h.2⟩
      intro hmem
      rcases (mem_keysOf_setk k1 k v rest).mp hmem with h2 | h2
      · exact h1 h2
      · exact h.1 h2

lemma mem_keysOf_iff_lookupk (n : String) (m : List (String × α)) :
    n ∈ keysOf m ↔ (lookupk n m).isSome := by
  induction m with
  | nil => simp [keysOf, lookupk]
  | cons p rest ih =>
    obtain ⟨k1, v1⟩ := p
    rw [keysOf_cons]
    by_cases h : k1 = n
    · subst h
      simp [lookupk]
    · rw [List.mem_cons]
      simp only [lookupk, if_neg h]
      rw [← ih]
      constructor
      · rintro (h2 | h2)
        · exact absurd h2.symm h
        · exact h2
      · exact Or.inr

lemma connect_list_nil (env : Env) (c : Client) :
    Client.connect_list env c [] = c := rfl

lemma connect_list_cons (env : Env) (c : Client) (x : String) (xs : List String) :
    Client.connect_list env c (x :: xs) = Client.connect_list env (Client.connect env c x) xs := rfl

lemma connect_list_body (env : Env) (nodes : List String) :
    ∀ c : Client, (Client.connect_list env c nodes).body = c.body := by
  induction nodes with
  | nil => intro c; rfl
  | cons x xs ih =>
    intro c
    rw [connect_list_cons, ih]
    rfl

lemma connect_list_attempts (env : Env) (nodes : List String) :
    ∀ (c : Client) (n : String),
      (Client.connect_list env c nodes).attempts n = c.attempts n + countOcc n nodes := by
  induction nodes with
  | nil => intro c n; simp [connect_list_nil, countOcc]
  | cons x xs ih =>
    intro c n
    rw [connect_list_cons, ih]
    by_cases h : n = x
    · subst h
      simp [Client.connect, countOcc]
      omega
    · simp [Client.connect, countOcc, h]

lemma connect_nc (env : Env) (c : Client) (x : String) :
    (Client.connect env c x).nc = setk x (mkNodeController env c.body x (c.attempts x)) c.nc := rfl

lemma connect_attempts_at (env : Env) (c : Client) (x n : String) :
    (Client.connect env c x).attempts n = if n = x then c.attempts n + 1 else c.attempts n := rfl

lemma connect_body_eq (env : Env) (c : Client) (x : String) :
    (Client.connect env c x).body = c.body := rfl

lemma connect_list_lookup (env : Env) (nodes : List String) :
    ∀ (c : Client) (n : String),
      lookupk n (Client.connect_list env c nodes).nc =
        if countOcc n nodes = 0 then lookupk n c.nc
        else some (mkNodeController env c.body n (c.attempts n + countOcc n nodes - 1)) := by
  induction nodes with
  | nil => intro c n; simp [connect_list_nil, countOcc]
  | cons x xs ih =>
    intro c n
    rw [connect_list_cons, ih, countOcc_cons, connect_nc, connect_body_eq, connect_attempts_at]
    by_cases h : n = x
    · subst h
      rw [if_pos rfl, if_pos rfl]
      rcases Nat.eq_zero_or_pos (countOcc n xs) with h0 | h0
      · rw [h0, if_pos rfl, if_neg (by omega), lookupk_setk_self]
        have harg : c.attempts n + (1 + 0) - 1 = c.attempts n := by omega
        rw [harg]
      · rw [if_neg (by omega), if_neg (by omega)]
        have harg : c.attempts n + 1 + countOcc n xs - 1 =
            c.attempts n + (1 + countOcc n xs) - 1 := by omega
        rw [harg]
    · rw [if_neg h, if_neg h, lookupk_setk_ne n x _ _ h]
      simp [h]

lemma connect_list_nodup (env : Env) (nodes : List String) :
    ∀ c : Client, (keysOf c.nc).Nodup → (keysOf (Client.connect_list env c nodes).nc).Nodup := by
  induction nodes with
  | nil => intro c h; simpa [connect_list_nil] using h
  | cons x xs ih =>
    intro c h
    rw [connect_list_cons]
    exact ih _ (nodup_keysOf_setk _ _ _ h)

lemma connect_list_opens (env : Env) (nodes : List String) :
    ∀ (c : Client) (n : String),
      opensCount n (Client.connect_list env c nodes).opensLog =
        opensCount n c.opensLog + countOcc n nodes := by
  induction nodes with
  | nil => intro c n; simp [connect_list_nil, countOcc]
  | cons x xs ih =>
    intro c n
    rw [connect_list_cons, ih]
    have happ : ∀ (l : List (String × Nat)) (p : String × Nat),
        opensCount n (l ++ [p]) = opensCount n l + (if p.1 = n then 1 else 0) := by
      intro l p
      induction l with
      | nil => simp [opensCount]
      | cons q rest ihl =>
        obtain ⟨q1, q2⟩ := q
        simp [opensCount, ihl]
        omega
    simp only [Client.connect]
    rw [happ]
    by_cases h : n = x
    · subst h; simp [countOcc]; omega
    · simp [countOcc, h, Ne.symm h]

lemma connect_list_opens_len (env : Env) (nodes : List String) :
    ∀ c : Client,
      (Client.connect_list env c nodes).opensLog.length = c.opensLog.length + nodes.length := by
  induction nodes with
  | nil => intro c; simp [connect_list_nil]
  | cons x xs ih =>
    intro c
    rw [connect_list_cons, ih]
    simp [Client.connect]
    omega

lemma runResults_keys (env : Env) :
    ∀ (items : List (String × NodeController)) (m : List (String × PyVal)),
      runResults env items = .ok m → keysOf m = keysOf items := by
  intro items
  induction items with
  | nil =>
    intro m h
    simp only [runResults, Except.ok.injEq] at h
    subst h
    rfl
  | cons p rest ih =>
    obtain ⟨k, nc⟩ := p
    intro m h
    simp only [runResults] at h
    rcases hg : get_response env nc with e | v
    · rw [hg] at h; exact absurd h (by simp)
    · rw [hg] at h
      rcases hr : runResults env rest with e | r
      · rw [hr] at h; exact absurd h (by simp)
      · rw [hr] at h
        simp only [Except.ok.injEq] at h
        subst h
        rw [keysOf_cons, keysOf_cons, ih r hr]

lemma runResults_lookup (env : Env) :
    ∀ (items : List (String × NodeController)) (m : List (String × PyVal)) (n : String),
      runResults env items = .ok m →
      lookupk n m = (lookupk n items).bind (fun nc => (get_response env nc).toOption) := by
  intro items
  induction items with
  | nil =>
    intro m n h
    simp only [runResults, Except.ok.injEq] at h
    subst h
    rfl
  | cons p rest ih =>
    obtain ⟨k, nc⟩ := p
    intro m n h
    simp only [runResults] at h
    rcases hg : get_response env nc with e | v
    · rw [hg] at h; exact absurd h (by simp)
    · rw [hg] at h
      rcases hr : runResults env rest with e | r
      · rw [hr] at h; exact absurd h (by simp)
      · rw [hr] at h
        simp only [Except.ok.injEq] at h
        subst h
        by_cases hk : k = n
        · simp [lookupk, hk, hg, Except.toOption]
        · simp [lookupk, hk, ih r n hr]

lemma get_response_congr (env1 env2 : Env) (nc : NodeController)
    (h : env1 nc.node nc.attempt = env2 nc.node nc.attempt) :
    get_response env1 nc = get_response env2 nc := by
  simp [get_response, h]

lemma mkNodeController_congr (env1 env2 : Env) (b n : String) (k : Nat)
    (h : env1 n k = env2 n k) :
    mkNodeController env1 b n k = mkNodeController env2 b n k := by
  simp [mkNodeController, h]

lemma call_eq_runResults (env : Env) (proc : String) (args : List PyVal) (nodes : List String) :
    call env proc args nodes =
      runResults env (Client.connect_list env (Client.init proc args) nodes).nc := by
  rcases h : runResults env (Client.connect_list env (Client.init proc args) nodes).nc with e | rs <;>
    simp [call, Client.run, Client.getresult, h]

lemma connect_list_init_lookup (env : Env) (proc : String) (args : List PyVal) (nodes : List String) (n : String) :
    lookupk n (Client.connect_list env (Client.init proc args) nodes).nc =
      if countOcc n nodes = 0 then Option.none
      else some (mkNodeController env (dumps (.list args)) n (countOcc n nodes - 1)) := by
  rw [connect_list_lookup]
  simp [Client.init, lookupk]

/-- respTrue is a well-formed response carrying the JSON value `true`. -/
def respTrue : HttpResponse := { status := 200, contentLength := some "4", body := "true".data }

/-- respNum1 is a well-formed response carrying the JSON value `1`. -/
def respNum1 : HttpResponse := { status := 200, contentLength := some "1", body := "1".data }

/-- respBizFalse is a well-formed response carrying the JSON value
`false` — a remote operation that logically answered the business
question with "no". -/
def respBizFalse : HttpResponse := { status := 200, contentLength := some "5", body := "false".data }

/-- respStatus500 is a response with a non-200 status code. -/
def respStatus500 : HttpResponse := { status := 500, contentLength := some "4", body := "true".data }

/-- respMalformed declares 3 bytes whose payload is not valid JSON. -/
def respMalformed : HttpResponse := { status := 200, contentLength := some "3", body := "\x7b\x7b\x7b".data }

/-- respTruncated declares 5 bytes whose payload is a truncated JSON
array, so decoding raises. -/
def respTruncated : HttpResponse := { status := 200, contentLength := some "5", body := "[1, 2".data }

/-- respShortRead declares a Content-Length of 2 while 4 bytes are
actually available: the 2-byte prefix "12" of the body "1234" is itself
valid JSON. -/
def respShortRead : HttpResponse := { status := 200, contentLength := some "2", body := "1234".data }

/-- respZeroLen declares a Content-Length of 0 although a body (the
JSON value `false`) is available on the wire. -/
def respZeroLen : HttpResponse := { status := 200, contentLength := some "0", body := "false".data }

/-- envTrue connects every node and answers `true`. -/
def envTrue : Env := fun _ _ => { connectOk := true, response := some respTrue }

/-- envNum connects every node and answers `1`. -/
def envNum : Env := fun _ _ => { connectOk := true, response := some respNum1 }

/-- envRefused refuses every connection (socket.error on connect). -/
def envRefused : Env := fun _ _ => { connectOk := false, response := Option.none }

/-- envBizFalse connects every node and answers the JSON value `false`. -/
def envBizFalse : Env := fun _ _ => { connectOk := true, response := some respBizFalse }

/-- envStatus500 connects every node and answers with HTTP status 500. -/
def envStatus500 : Env := fun _ _ => { connectOk := true, response := some respStatus500 }

/-- envMalformed connects every node and answers with a malformed
payload. -/
def envMalformed : Env := fun _ _ => { connectOk := true, response := some respMalformed }

/-- envTruncated connects every node and answers with a truncated JSON
payload. -/
def envTruncated : Env := fun _ _ => { connectOk := true, response := some respTruncated }

/-- envShortRead connects every node and answers with the
mismatched-length response respShortRead. -/
def envShortRead : Env := fun _ _ => { connectOk := true, response := some respShortRead }

/-- envZeroLen connects every node and answers with a zero-declared
length. -/
def envZeroLen : Env := fun _ _ => { connectOk := true, response := some respZeroLen }

/-- envIsolB behaves like envNum except that node2 answers with a
malformed payload. -/
def envIsolB : Env := fun n k =>
  if n = "node2" then { connectOk := true, response := some respMalformed } else envNum n k

/-- envIsolC behaves like envNum except that node2 refuses the
connection. -/
def envIsolC : Env := fun n k =>
  if n = "node2" then { connectOk := false, response := Option.none } else envNum n k

/-- envLastWins fails the first connection attempt to every node and
answers `1` from the second attempt on. -/
def envLastWins : Env := fun _ k =>
  if k = 0 then { connectOk := false, response := Option.none }
  else { connectOk := true, response := some respNum1 }

/-- C2: the claim says a successful response decoding to `false`
(Success(false)) is distinguishable BY TYPE from every failure kind.
In the code it is not: `get_response` returns the very same Python
value `False` for a remote business-false answer (200, body "false"),
for a connect failure, and for a non-200 status — the collapse the
class docstring itself describes as "One current bug".  This theorem
evaluates the code at all three inputs and shows the three outcomes are
the identical value. -/
theorem c2_false_collapse :
    get_response envBizFalse (mkNodeController envBizFalse "[]" "node1" 0) = .ok falseVal
    ∧ get_response envRefused (mkNodeController envRefused "[]" "node2" 0) = .ok falseVal
    ∧ get_response envStatus500 (mkNodeController envStatus500 "[]" "node3" 0) = .ok falseVal :=
  ⟨rfl, rfl, rfl⟩

/-- C3: a `socket.error` during connect+send is captured, not raised —
`NodeController.__init__` always returns a controller, with `failed =
True` — and `get_response` on an already-failed handle returns the
failure value immediately, for EVERY environment (so no response is
consulted: no blocking I/O is attempted). -/
theorem c3_connect_failure_captured (env : Env) (b node : String) (k : Nat)
    (h : (env node k).connectOk = false) :
    (mkNodeController env b node k).failed = true
    ∧ ∀ env2 : Env, get_response env2 (mkNodeController env b node k) = .ok falseVal := by
  have hf : (mkNodeController env b node k).failed = true := by
    simp [mkNodeController, h]
  exact ⟨hf, fun env2 => by simp [get_response, hf]⟩

theorem c3_connect_failure_captured_witness :
    (mkNodeController envRefused "[]" "node1" 0).failed = true
    ∧ get_response envRefused (mkNodeController envRefused "[]" "node1" 0) = .ok falseVal := by
  have h := c3_connect_failure_captured envRefused "[]" "node1" 0 rfl
  exact ⟨h.1, h.2 envRefused⟩

/-- C5 counterexample: the claim says a response whose declared length
does not match the bytes actually available yields a transport failure,
never a Success built from a partial payload.  The code has no such
check: with Content-Length "2" and 4 bytes ("1234") on the wire,
`resp.read(2)` returns the prefix "12", `simplejson.loads` decodes it,
and `get_response` returns it as a success value. -/
theorem c5_counterexample :
    respShortRead.contentLength = some "2"
    ∧ respShortRead.body.length = 4
    ∧ get_response envShortRead (mkNodeController envShortRead "[]" "node1" 0) = .ok (.int 12) :=
  ⟨rfl, rfl, rfl⟩

/-- C5 amended: when the declared Content-Length differs from the bytes
actually available, `get_response` performs no mismatch check; it reads
up to the declared length and, whenever those bytes decode successfully,
returns Success of that (possibly partial) payload. -/
theorem c5_amended_short_read (env : Env) (nc : NodeController) (resp : HttpResponse) (len : Int) (v : PyVal)
    (hnf : nc.failed = false)
    (hresp : (env nc.node nc.attempt).response = some resp)
    (hstat : resp.status = 200)
    (hlen : pyInt (resp.contentLength.getD "0") = some len)
    (hnz : len ≠ 0)
    (hmismatch : len ≠ Int.ofNat resp.body.length)
    (hdec : loads (String.mk (readAmt len resp.body)) = .ok v) :
    get_response env nc = .ok v := by
  simp [get_response, hnf, hresp, hstat, hlen, hnz, hdec]

theorem c5_amended_short_read_witness :
    get_response envShortRead (mkNodeController envShortRead "[]" "node9" 0) = .ok (.int 12) :=
  c5_amended_short_read envShortRead (mkNodeController envShortRead "[]" "node9" 0)
    respShortRead 2 (.int 12) rfl rfl rfl rfl (by decide) (by decide) rfl

/-- C6: a response whose declared Content-Length parses to zero (also
when the header is absent, since `getheader` falls back to "0") makes
`get_response` return the failure value `False` without the body ever
being read or decoded — the body is universally quantified here and the
result does not depend on it — so a zero-length reply is never turned
into a Success carrying an empty value.  `False` is the code's
(overloaded) failure sentinel, the transport-failure signal of this
code base. -/
theorem c6_zero_length_failure (env : Env) (nc : NodeController) (hdr : Option String) (body : List Char)
    (hnf : nc.failed = false)
    (hresp : (env nc.node nc.attempt).response = some { status := 200, contentLength := hdr, body := body })
    (hzero : pyInt (hdr.getD "0") = some 0) :
    get_response env nc = .ok falseVal := by
  simp [get_response, hnf, hresp, hzero]

theorem c6_zero_length_failure_witness :
    get_response envZeroLen (mkNodeController envZeroLen "[]" "node1" 0) = .ok falseVal :=
  c6_zero_length_failure envZeroLen (mkNodeController envZeroLen "[]" "node1" 0)
    (some "0") "false".data rfl rfl rfl

/-- C4 counterexample: the claim says a fully-read but undecodable
payload makes awaiting the response return
TransportFailure("malformed payload") as a value, never raised past the
fan-out client boundary.  In the code `simplejson.loads(payload)` is
not wrapped in any handler: its ValueError escapes `get_response`,
escapes `Client.run`, and aborts the whole `call_*` wrapper — here the
5 declared bytes "[1, 2" are read fully and the decode error propagates
out of the entire fan-out call. -/
theorem c4_counterexample :
    get_response envTruncated (mkNodeController envTruncated "[]" "node1" 0) = .error "expected , or ]"
    ∧ call envTruncated "os_diagnose" [] ["node1"] = .error "expected , or ]" :=
  ⟨rfl, rfl⟩

/-- C4 amended: a decode failure on a fully-read payload is NOT
converted into a returned failure value; the decode exception
propagates uncaught past the fan-out client boundary, aborting the
whole call. -/
theorem c4_amended_decode_error_raises (env : Env) (proc : String) (args : List PyVal) (node : String) (resp : HttpResponse) (len : Int) (e : String)
    (hconn : (env node 0).connectOk = true)
    (hresp : (env node 0).response = some resp)
    (hstat : resp.status = 200)
    (hlen : pyInt (resp.contentLength.getD "0") = some len)
    (hnz : len ≠ 0)
    (hdec : loads (String.mk (readAmt len resp.body)) = .error e) :
    call env proc args [node] = .error e := by
  simp [call, Client.run, Client.connect_list, Client.connect, Client.init, mkNodeController,
    runResults, get_response, setk, hconn, hresp, hstat, hlen, hnz, hdec]

theorem c4_amended_decode_error_raises_witness :
    call envTruncated "version" [] ["node1"] = .error "expected , or ]" :=
  c4_amended_decode_error_raises envTruncated "version" [] "node1" respTruncated 5
    "expected , or ]" rfl rfl rfl rfl (by decide) rfl

/-- C1 counterexample: the claim says the fan-out call returns a result
map whose key set equals the requested set for EVERY node set; but when
a node's payload is malformed, the uncaught decode exception aborts the
call, which then returns no result map at all. -/
theorem c1_counterexample :
    (call envMalformed "version" [] ["node1"]).isOk = false := rfl

/-- C1 amended: whenever the fan-out call does return a result map
(no per-node decode exception aborted it), the map has no duplicate
keys and its key set equals exactly the set of nodes requested; and for
the empty node set the call unconditionally returns the empty map with
zero connection openings (no network activity). -/
theorem c1_amended_keyset :
    (∀ (env : Env) (proc : String) (args : List PyVal) (nodes : List String) (m : List (String × PyVal)),
        call env proc args nodes = .ok m →
        (keysOf m).Nodup ∧ ∀ n, n ∈ keysOf m ↔ n ∈ nodes)
    ∧ ∀ (env : Env) (proc : String) (args : List PyVal),
        call env proc args [] = .ok [] ∧ callOpens env proc args [] = 0 := by
  constructor
  · intro env proc args nodes m h
    rw [call_eq_runResults] at h
    have hkeys := runResults_keys env _ m h
    constructor
    · rw [hkeys]
      exact connect_list_nodup env nodes (Client.init proc args) (by simp [Client.init, keysOf])
    · intro n
      rw [hkeys, mem_keysOf_iff_lookupk, connect_list_init_lookup]
      rcases Nat.eq_zero_or_pos (countOcc n nodes) with h0 | h0
      · rw [if_pos h0]
        simp only [Option.isSome_none, Bool.false_eq_true, false_iff]
        intro hmem
        exact absurd ((countOcc_pos_iff_mem n nodes).mpr hmem) (by omega)
      · rw [if_neg (by omega)]
        simp only [Option.isSome_some, true_iff]
        exact (countOcc_pos_iff_mem n nodes).mp h0
  · intro env proc args
    exact ⟨rfl, rfl⟩

theorem c1_amended_keyset_witness :
    (keysOf [("node1", PyVal.bool true), ("node2", PyVal.bool true)]).Nodup
    ∧ (∀ n, n ∈ keysOf [("node1", PyVal.bool true), ("node2", PyVal.bool true)] ↔ n ∈ ["node1", "node2"])
    ∧ call envTrue "version" [] [] = .ok []
    ∧ callOpens envTrue "version" [] [] = 0 := by
  have h1 := c1_amended_keyset.1 envTrue "version" [] ["node1", "node2"]
    [("node1", PyVal.bool true), ("node2", PyVal.bool true)] rfl
  have h2 := c1_amended_keyset.2 envTrue "version" []
  exact ⟨h1.1, h1.2, h2.1, h2.2⟩

/-- C7: every controller created by one fan-out invocation transmits
the body the Client encoded once in `__init__` (`self.body =
simplejson.dumps(args)`), so any two target nodes of the same
invocation are sent byte-identical request bodies; determinism of the
encoding is inherent to `dumps` being a pure function of the argument
list. -/
theorem c7_identical_bodies (env : Env) (proc : String) (args : List PyVal) (nodes : List String) (na nb : String) (ca cb : NodeController)
    (ha : lookupk na (Client.connect_list env (Client.init proc args) nodes).nc = some ca)
    (hb : lookupk nb (Client.connect_list env (Client.init proc args) nodes).nc = some cb) :
    ca.body = dumps (.list args) ∧ cb.body = ca.body := by
  have hbody : ∀ (n : String) (ctrl : NodeController),
      lookupk n (Client.connect_list env (Client.init proc args) nodes).nc = some ctrl →
      ctrl.body = dumps (.list args) := by
    intro n ctrl h
    rw [connect_list_init_lookup] at h
    by_cases hc : countOcc n nodes = 0
    · rw [if_pos hc] at h
      exact absurd h (by simp)
    · rw [if_neg hc] at h
      obtain rfl : ctrl = mkNodeController env (dumps (.list args)) n (countOcc n nodes - 1) :=
        (Option.some.inj h).symm
      rfl
  exact ⟨hbody na ca ha, by rw [hbody nb cb hb, hbody na ca ha]⟩

theorem c7_identical_bodies_witness :
    ({ node := "node1", attempt := 0, failed := false, body := "[]" } : NodeController).body
      = dumps (.list [])
    ∧ ({ node := "node2", attempt := 0, failed := false, body := "[]" } : NodeController).body
      = ({ node := "node1", attempt := 0, failed := false, body := "[]" } : NodeController).body :=
  c7_identical_bodies envTrue "version" [] ["node1", "node2"] "node1" "node2"
    { node := "node1", attempt := 0, failed := false, body := "[]" }
    { node := "node2", attempt := 0, failed := false, body := "[]" } rfl rfl

/-- C8 counterexample: the claim says changing one node's transport
behaviour changes only that node's entry and never aborts the overall
call.  Changing only node2's response to a malformed payload makes the
uncaught decode exception abort the whole call: node1, unchanged
between the two environments, loses its entry entirely. -/
theorem c8_counterexample :
    call envNum "version" [] ["node1", "node2"] = .ok [("node1", PyVal.int 1), ("node2", PyVal.int 1)]
    ∧ envIsolB "node1" 0 = envNum "node1" 0
    ∧ (call envIsolB "version" [] ["node1", "node2"]).isOk = false :=
  ⟨rfl, rfl, rfl⟩

/-- C8 amended: per-node isolation holds between any two runs that both
complete (no decode exception aborted either run): if two environments
agree on every node other than one, the two returned result maps agree
on every node other than that one — a connect failure or any returned
failure value on one node never perturbs the other nodes' entries. -/
theorem c8_amended_isolation (env env2 : Env) (proc : String) (args : List PyVal) (nodes : List String) (n0 : String) (m m2 : List (String × PyVal))
    (hagree : ∀ (n : String) (k : Nat), n ≠ n0 → env n k = env2 n k)
    (h1 : call env proc args nodes = .ok m)
    (h2 : call env2 proc args nodes = .ok m2)
    (n : String) (hn : n ≠ n0) :
    lookupk n m = lookupk n m2 := by
  rw [call_eq_runResults] at h1 h2
  rw [runResults_lookup env _ m n h1, runResults_lookup env2 _ m2 n h2]
  rw [connect_list_init_lookup, connect_list_init_lookup]
  rcases Nat.eq_zero_or_pos (countOcc n nodes) with h0 | h0
  · rw [if_pos h0, if_pos h0]
    rfl
  · rw [if_neg (by omega), if_neg (by omega)]
    have hmk : mkNodeController env (dumps (.list args)) n (countOcc n nodes - 1)
        = mkNodeController env2 (dumps (.list args)) n (countOcc n nodes - 1) :=
      mkNodeController_congr env env2 (dumps (.list args)) n _ (hagree n _ hn)
    rw [← hmk]
    have hgr := get_response_congr env env2
      (mkNodeController env (dumps (.list args)) n (countOcc n nodes - 1)) (hagree n _ hn)
    show (get_response env (mkNodeController env (dumps (.list args)) n (countOcc n nodes - 1))).toOption
        = (get_response env2 (mkNodeController env (dumps (.list args)) n (countOcc n nodes - 1))).toOption
    rw [hgr]

theorem c8_amended_isolation_witness :
    lookupk "node1" [("node1", PyVal.int 1), ("node2", PyVal.int 1)]
      = lookupk "node1" [("node1", PyVal.int 1), ("node2", PyVal.bool false)] :=
  c8_amended_isolation envNum envIsolC "version" [] ["node1", "node2"] "node2"
    [("node1", PyVal.int 1), ("node2", PyVal.int 1)]
    [("node1", PyVal.int 1), ("node2", PyVal.bool false)]
    (fun n k h => by simp [envIsolC, h]) rfl rfl "node1" (by decide)

/-- C9: when the target list repeats a node, `connect` opens a new
connection for every occurrence (the opens log records one opening per
occurrence) while the dict assignment `self.nc[connect_node] = ...`
overwrites, so `self.nc` keeps exactly one controller per node — the
one of the LAST occurrence (attempt index `count - 1`) — and the result
map holds exactly one entry for that node: the outcome of that
last-opened connection. -/
theorem c9_duplicate_nodes (env : Env) (proc : String) (args : List PyVal) (nodes : List String) (n : String) (m : List (String × PyVal))
    (hmem : 0 < countOcc n nodes)
    (hrun : runResults env (Client.connect_list env (Client.init proc args) nodes).nc = .ok m) :
    opensCount n (Client.connect_list env (Client.init proc args) nodes).opensLog = countOcc n nodes
    ∧ lookupk n (Client.connect_list env (Client.init proc args) nodes).nc
        = some (mkNodeController env (dumps (.list args)) n (countOcc n nodes - 1))
    ∧ (keysOf (Client.connect_list env (Client.init proc args) nodes).nc).Nodup
    ∧ lookupk n m
        = (get_response env (mkNodeController env (dumps (.list args)) n (countOcc n nodes - 1))).toOption := by
  have hlook : lookupk n (Client.connect_list env (Client.init proc args) nodes).nc
      = some (mkNodeController env (dumps (.list args)) n (countOcc n nodes - 1)) := by
    rw [connect_list_init_lookup, if_neg (by omega)]
  refine ⟨?_, hlook, ?_, ?_⟩
  · rw [connect_list_opens]
    simp [Client.init, opensCount]
  · exact connect_list_nodup env nodes (Client.init proc args) (by simp [Client.init, keysOf])
  · rw [runResults_lookup env _ m n hrun, hlook]
    rfl

theorem c9_duplicate_nodes_witness :
    opensCount "node1" (Client.connect_list envLastWins (Client.init "version" []) ["node1", "node1"]).opensLog
      = countOcc "node1" ["node1", "node1"]
    ∧ lookupk "node1" (Client.connect_list envLastWins (Client.init "version" []) ["node1", "node1"]).nc
      = some (mkNodeController envLastWins (dumps (.list [])) "node1" (countOcc "node1" ["node1", "node1"] - 1))
    ∧ (keysOf (Client.connect_list envLastWins (Client.init "version" []) ["node1", "node1"]).nc).Nodup
    ∧ lookupk "node1" [("node1", PyVal.int 1)]
      = (get_response envLastWins (mkNodeController envLastWins (dumps (.list [])) "node1" (countOcc "node1" ["node1", "node1"] - 1))).toOption :=
  c9_duplicate_nodes envLastWins "version" [] ["node1", "node1"] "node1"
    [("node1", PyVal.int 1)] (by decide) rfl

/-- C10: in `call_os_diagnose` every node whose raw per-node result is
falsy is mapped to the empty list in the returned dictionary; since the
`False` failure sentinel (the outcome of every connect/transport
failure, see C2/C3) and the legitimate empty list of OS definitions are
both falsy, a failed node is indistinguishable from a node that
reported no OS definitions. -/
theorem c10_falsy_collapse :
    (∀ (α : Type) (fromDict : PyVal → α) (raw : List (String × PyVal)) (m : List (String × List α)) (n : String) (v : PyVal),
        osDiagPost fromDict raw = .ok m → lookupk n raw = some v → pyTruthy v = false →
        lookupk n m = some [])
    ∧ pyTruthy falseVal = false ∧ pyTruthy (.list []) = false := by
  refine ⟨?_, rfl, rfl⟩
  intro α fromDict raw
  induction raw with
  | nil =>
    intro m n v hpost hlook
    exact absurd hlook (by simp [lookupk])
  | cons p rest ih =>
    obtain ⟨k, w⟩ := p
    intro m n v hpost hlook hfalsy
    simp only [osDiagPost] at hpost
    rcases he : osEntry fromDict w with e | nr
    · rw [he] at hpost; exact absurd hpost (by simp)
    · rw [he] at hpost
      rcases hr : osDiagPost fromDict rest with e | r
      · rw [hr] at hpost; exact absurd hpost (by simp)
      · rw [hr] at hpost
        simp only [Except.ok.injEq] at hpost
        subst hpost
        by_cases hk : k = n
        · subst hk
          have hwv : w = v := by simpa [lookupk] using hlook
          have hent : osEntry fromDict w = .ok ([] : List α) := by
            rw [hwv]
            simp [osEntry, hfalsy]
          rw [hent] at he
          have hnr : nr = [] := (Except.ok.inj he).symm
          simp [lookupk, hnr]
        · simp only [lookupk, if_neg hk] at hlook ⊢
          exact ih r n v hr hlook hfalsy

theorem c10_falsy_collapse_witness :
    lookupk "node1" [("node1", ([] : List PyVal)), ("node2", [])] = some []
    ∧ lookupk "node2" [("node1", ([] : List PyVal)), ("node2", [])] = some [] :=
  ⟨c10_falsy_collapse.1 PyVal id [("node1", falseVal), ("node2", .list [])]
      [("node1", []), ("node2", [])] "node1" falseVal rfl rfl rfl,
   c10_falsy_collapse.1 PyVal id [("node1", falseVal), ("node2", .list [])]
      [("node1", []), ("node2", [])] "node2" (.list []) rfl rfl rfl⟩
